import Mathlib

/-!
Verification development for the BookAnimator application (src/App.js, the
PDF/Gemini variant of the source, lines 428-1116 of the concatenated file).
The pure core of the program — document ingestion, the scene store, the
navigation gate, the prompt builder, the generation client and the
per-scene orchestration — is embedded as executable Lean definitions, and
the specification's claims are settled against them.

Modelling conventions:
* JavaScript objects parsed from JSON are modelled by the inductive `Json`;
  the JS value `null` is `Json.null`, while an absent property / `undefined`
  is `Option.none` at use sites.
* The two external services are inputs: the generation service's HTTP
  answer is a `FetchResult` argument, and the video-synthesis stub is the
  constant it returns in the source.
* Every state commit in the source goes through `updateProject(id, patch)`,
  which merges top-level fields.  Handlers are modelled as pure functions
  returning the list of patches they pass to `updateProject` together with
  the message passed to `setError` (if any); `applyPatch` performs the JS
  spread-merge.
-/

/-- A JSON value as produced by `JSON.parse`.  Numbers keep their source
lexeme: no claim inspects numeric values beyond zero-ness and rendering,
and the lexeme preserves both exactly. -/
inductive Json where
  | null : Json
  | bool (b : Bool) : Json
  | num (raw : String) : Json
  | str (s : String) : Json
  | arr (elems : List Json) : Json
  | obj (fields : List (String × Json)) : Json

/-- Whitespace accepted by `JSON.parse` between tokens. -/
def jsonWs (c : Char) : Bool :=
  c == ' ' || c == '\t' || c == '\n' || c == '\r'

def skipWs : List Char → List Char
  | [] => []
  | c :: rest => if jsonWs c then skipWs rest else c :: rest

def hexDigit? (c : Char) : Option Nat :=
  if '0' ≤ c ∧ c ≤ '9' then some (c.toNat - '0'.toNat)
  else if 'a' ≤ c ∧ c ≤ 'f' then some (c.toNat - 'a'.toNat + 10)
  else if 'A' ≤ c ∧ c ≤ 'F' then some (c.toNat - 'A'.toNat + 10)
  else none

/-- Body of a JSON string literal, after the opening quote.  Returns the
decoded characters and the input following the closing quote. -/
def parseStrBody : List Char → Option (List Char × List Char)
  | '"' :: rest => some ([], rest)
  | '\\' :: '"' :: rest => (parseStrBody rest).map (fun q => ('"' :: q.1, q.2))
  | '\\' :: '\\' :: rest => (parseStrBody rest).map (fun q => ('\\' :: q.1, q.2))
  | '\\' :: '/' :: rest => (parseStrBody rest).map (fun q => ('/' :: q.1, q.2))
  | '\\' :: 'b' :: rest => (parseStrBody rest).map (fun q => ('\x08' :: q.1, q.2))
  | '\\' :: 'f' :: rest => (parseStrBody rest).map (fun q => ('\x0c' :: q.1, q.2))
  | '\\' :: 'n' :: rest => (parseStrBody rest).map (fun q => ('\n' :: q.1, q.2))
  | '\\' :: 'r' :: rest => (parseStrBody rest).map (fun q => ('\r' :: q.1, q.2))
  | '\\' :: 't' :: rest => (parseStrBody rest).map (fun q => ('\t' :: q.1, q.2))
  | '\\' :: 'u' :: a :: b :: c :: d :: rest =>
    match hexDigit? a, hexDigit? b, hexDigit? c, hexDigit? d with
    | some ha, some hb, some hc, some hd =>
      (parseStrBody rest).map
        (fun q => (Char.ofNat (((ha * 16 + hb) * 16 + hc) * 16 + hd) :: q.1, q.2))
    | _, _, _, _ => none
  | '\\' :: _ => none
  | c :: rest =>
    if c.toNat < 32 then none
    else (parseStrBody rest).map (fun q => (c :: q.1, q.2))
  | [] => none

def digitsSplit (l : List Char) : List Char × List Char :=
  (l.takeWhile Char.isDigit, l.dropWhile Char.isDigit)

def parseExpPart (acc : List Char) (l : List Char) : Option (List Char × List Char) :=
  match l with
  | c :: r =>
    if c == 'e' || c == 'E' then
      match r with
      | s :: r' =>
        if s == '+' || s == '-' then
          match digitsSplit r' with
          | ([], _) => none
          | (ds, r2) => some (acc ++ c :: s :: ds, r2)
        else
          match digitsSplit r with
          | ([], _) => none
          | (ds, r2) => some (acc ++ c :: ds, r2)
      | [] => none
    else some (acc, l)
  | [] => some (acc, l)

def parseFracPart (acc : List Char) (l : List Char) : Option (List Char × List Char) :=
  match l with
  | '.' :: r =>
    (match digitsSplit r with
     | ([], _) => none
     | (ds, r2) => some (acc ++ '.' :: ds, r2))
  | _ => some (acc, l)

/-- A JSON number literal (the full `-?(0|[1-9][0-9]*)(.[0-9]+)?([eE][+-]?[0-9]+)?`
grammar); the accepted lexeme is returned verbatim. -/
def parseNumLit (l : List Char) : Option (String × List Char) :=
  let p := match l with
    | '-' :: r => (['-'], r)
    | _ => (([] : List Char), l)
  match p.2 with
  | '0' :: r =>
    (match parseFracPart (p.1 ++ ['0']) r with
     | none => none
     | some (acc, r2) =>
       match parseExpPart acc r2 with
       | none => none
       | some (acc2, r3) => some (String.mk acc2, r3))
  | c :: r =>
    if c.isDigit then
      let q := digitsSplit r
      match parseFracPart (p.1 ++ c :: q.1) q.2 with
      | none => none
      | some (acc, r2) =>
        match parseExpPart acc r2 with
        | none => none
        | some (acc2, r3) => some (String.mk acc2, r3)
    else none
  | [] => none

/-- Insert a member into a JSON object under construction; a repeated key
overwrites the earlier value in place, as in a JS object literal. -/
def objInsert (fs : List (String × Json)) (k : String) (v : Json) : List (String × Json) :=
  if fs.any (fun q => q.1 == k) then fs.map (fun q => if q.1 == k then (k, v) else q)
  else fs ++ [(k, v)]

/-- Mode of the recursive-descent JSON reader: a value, the tail of an
array after `[`, or the tail of an object after the opening brace. -/
inductive ParseMode where
  | val : ParseMode
  | arrTail (acc : List Json) : ParseMode
  | objTail (acc : List (String × Json)) : ParseMode

/-- Fuel-indexed JSON reader; the fuel only bounds recursion depth and is
chosen large enough in `Json.parse` to never run out. -/
def parseCore : Nat → ParseMode → List Char → Option (Json × List Char)
  | 0, _, _ => none
  | fuel + 1, .val, l =>
    (match skipWs l with
     | 'n' :: 'u' :: 'l' :: 'l' :: r => some (.null, r)
     | 't' :: 'r' :: 'u' :: 'e' :: r => some (.bool true, r)
     | 'f' :: 'a' :: 'l' :: 's' :: 'e' :: r => some (.bool false, r)
     | '"' :: r => (parseStrBody r).map (fun q => (.str (String.mk q.1), q.2))
     | '[' :: r =>
       (match skipWs r with
        | ']' :: r2 => some (.arr [], r2)
        | r2 => parseCore fuel (.arrTail []) r2)
     | '{' :: r =>
       (match skipWs r with
        | '}' :: r2 => some (.obj [], r2)
        | r2 => parseCore fuel (.objTail []) r2)
     | l2 => (parseNumLit l2).map (fun q => (.num q.1, q.2)))
  | fuel + 1, .arrTail acc, l =>
    (match parseCore fuel .val l with
     | none => none
     | some (v, r) =>
       match skipWs r with
       | ',' :: r2 => parseCore fuel (.arrTail (acc ++ [v])) r2
       | ']' :: r2 => some (.arr (acc ++ [v]), r2)
       | _ => none)
  | fuel + 1, .objTail acc, l =>
    (match skipWs l with
     | '"' :: r =>
       (match parseStrBody r with
        | none => none
        | some (kcs, r2) =>
          match skipWs r2 with
          | ':' :: r3 =>
            (match parseCore fuel .val r3 with
             | none => none
             | some (v, r4) =>
               match skipWs r4 with
               | ',' :: r5 => parseCore fuel (.objTail (objInsert acc (String.mk kcs) v)) r5
               | '}' :: r5 => some (.obj (objInsert acc (String.mk kcs) v), r5)
               | _ => none)
          | _ => none)
     | _ => none)

/-- The behaviour of `JSON.parse` on a string: `some` the parsed value, or
`none` where `JSON.parse` throws a `SyntaxError`. -/
def Json.parse (s : String) : Option Json :=
  match parseCore (2 * s.data.length + 8) .val s.data with
  | some (v, r) => if (skipWs r).isEmpty then some v else none
  | none => none

/-- Property read on a JS object value (`fields.find` on the first, i.e.
unique, occurrence of the key). -/
def Json.getField : Json → String → Option Json
  | .obj fs, k => (fs.find? (fun q => q.1 == k)).map (fun q => q.2)
  | _, _ => none

/-- Zero test on a JSON number lexeme: the value is zero exactly when every
digit of the mantissa (the part before any exponent marker) is `0`. -/
def numMantissaZero (raw : String) : Bool :=
  (raw.data.takeWhile (fun c => c != 'e' && c != 'E')).all (fun c => !c.isDigit || c == '0')

/-- JS truthiness of a JSON value. -/
def Json.truthyV : Json → Bool
  | .null => false
  | .bool b => b
  | .num raw => !(numMantissaZero raw)
  | .str s => s != ""
  | .arr _ => true
  | .obj _ => true

/-- JS truthiness of a possibly-`undefined` value (`none` = `undefined`). -/
def truthy : Option Json → Bool
  | none => false
  | some v => v.truthyV

/-- One level of JS `String()` conversion, used for elements when an array
is joined; nested arrays are approximated by the empty string (the source
only ever coerces the candidate part text, a string, so this case is never
exercised). -/
def jsToStringElem : Json → String
  | .null => ""
  | .bool true => "true"
  | .bool false => "false"
  | .num raw => raw
  | .str s => s
  | .arr _ => ""
  | .obj _ => "[object Object]"

/-- JS `String()` conversion of a JSON value, as applied by `JSON.parse`
to a non-string argument and when a value is rendered into a string slot.
Exact for primitives and for one-level arrays. -/
def jsToString : Json → String
  | .null => "null"
  | .bool true => "true"
  | .bool false => "false"
  | .num raw => raw
  | .str s => s
  | .arr xs => String.intercalate "," (xs.map jsToStringElem)
  | .obj _ => "[object Object]"

/-- JS `x || dflt` where `x` is a possibly-absent JSON value that is about
to be stored in a string field: the raw value when truthy (string-coerced;
exact for the string payloads the response schema declares), otherwise the
default. -/
def jsValOr (v : Option Json) (dflt : String) : String :=
  match v with
  | some j => if j.truthyV then jsToString j else dflt
  | none => dflt

/-! ## Data model: Scene, Project, patches -/

/-- A scene record as stored in `project.scenes`.  `text` is present only
for numbered pages; `prompt` and `videoUrl` are assigned on completion
(`prompt` holds the raw parsed service payload, `videoUrl` the synthesis
result). -/
structure Scene where
  status : String
  text : Option String := none
  prompt : Option Json := none
  videoUrl : Option String := none

/-- A project record, as created by `createNewProject` and mutated through
`updateProject`. -/
structure Project where
  id : String
  name : String
  author : String
  storyText : String
  totalPages : Nat
  scenes : List (String × Scene)
  createdAt : String

/-- A partial update passed to `updateProject(projectId, updatedData)`.
`id`/`createdAt` are only ever merged with their unchanged values in the
source, so they are omitted from the patch. -/
structure ProjectPatch where
  name : Option String := none
  author : Option String := none
  storyText : Option String := none
  totalPages : Option Nat := none
  scenes : Option (List (String × Scene)) := none

/-- The spread-merge performed by `updateProject`:
`p => p.id === projectId ? { ...p, ...updatedData } : p`. -/
def applyPatch (p : Project) (u : ProjectPatch) : Project :=
  { p with
    name := u.name.getD p.name
    author := u.author.getD p.author
    storyText := u.storyText.getD p.storyText
    totalPages := u.totalPages.getD p.totalPages
    scenes := u.scenes.getD p.scenes }

def applyPatches (p : Project) (us : List ProjectPatch) : Project :=
  us.foldl applyPatch p

/-- The project produced by `createNewProject` (id and timestamp are
environment-supplied). -/
def newProject (pid createdAt : String) : Project :=
  { id := pid
    name := "Untitled Project"
    author := "Unknown Author"
    storyText := ""
    totalPages := 0
    scenes := []
    createdAt := createdAt }

/-- Lookup `project.scenes[sceneId]` (`none` = property absent). -/
def findScene (m : List (String × Scene)) (k : String) : Option Scene :=
  (m.find? (fun q => q.1 == k)).map (fun q => q.2)

/-- The JS computed-key spread `{ ...scenes, [sceneId]: v }`: replaces the
entry in place when the key exists, otherwise appends it. -/
def setScene (m : List (String × Scene)) (k : String) (v : Scene) : List (String × Scene) :=
  if m.any (fun q => q.1 == k) then m.map (fun q => if q.1 == k then (k, v) else q)
  else m ++ [(k, v)]

/-! ## Document ingestion (handleFileChange, text processing part) -/

/-- The whitespace class of the JS regexes (`\s`) and of `String.trim`;
the characters that occur in practice. -/
def jsSpace (c : Char) : Bool :=
  c == ' ' || c == '\t' || c == '\n' || c == '\r' || c == '\x0b' || c == '\x0c' || c == '\xa0'

/-- JS `String.prototype.trim`. -/
def jsTrim (s : String) : String :=
  String.mk (((s.data.dropWhile jsSpace).reverse.dropWhile jsSpace).reverse)

/-- Index of the last newline in a character list, if any. -/
def lastNl : List Char → Option Nat
  | [] => none
  | c :: rest =>
    match lastNl rest with
    | some j => some (j + 1)
    | none => if c == '\n' then some 0 else none

/-- One pass of `text.split(/\n\s*\n/)`.  At a `\n`, the regex greedily
swallows the following whitespace run and backtracks to the last newline
inside it; the match succeeds exactly when that run contains a newline.
`cur` is the current segment, reversed; the fuel equals the remaining
input length plus one and never runs out. -/
def splitStep : Nat → List Char → List Char → List (List Char)
  | _, cur, [] => [cur.reverse]
  | 0, cur, l => [cur.reverse ++ l]
  | fuel + 1, cur, c :: rest =>
    if c == '\n' then
      match lastNl (rest.takeWhile jsSpace) with
      | some j => cur.reverse :: splitStep fuel [] (rest.drop (j + 1))
      | none => splitStep fuel (c :: cur) rest
    else splitStep fuel (c :: cur) rest

/-- `text.split(/\n\s*\n/)` on the extracted document text. -/
def rawSegments (text : String) : List String :=
  (splitStep (text.data.length + 1) [] text.data).map String.mk

/-- `text.split(/\n\s*\n/).filter(p => p.trim() !== '')`. -/
def splitPages (text : String) : List String :=
  (rawSegments text).filter (fun s => jsTrim s != "")

/-- `pages.length > 0 ? pages.length : 1`. -/
def ingestTotal (text : String) : Nat :=
  if (splitPages text).length > 0 then (splitPages text).length else 1

def pendingScene : Scene := { status := "pending" }

/-- The scene map built by ingestion:
`{ cover: {status:'pending'}, end: {status:'pending'} }` plus
`scenes[i] = { status:'pending', text: pages[i-1] || '' }` for `i = 1..totalPages`. -/
def ingestMap (pages : List String) (totalPages : Nat) : List (String × Scene) :=
  ("cover", pendingScene) :: ("end", pendingScene) ::
    (List.range totalPages).map
      (fun i => (toString (i + 1), { status := "pending", text := some (pages.getD i "") }))

def ingestMapOf (text : String) : List (String × Scene) :=
  ingestMap (splitPages text) (ingestTotal text)

/-! ## Navigation gate (PageNavigation) and auto-advance (ProjectWorkspace effect) -/

/-- `['cover', ...Array.from({length: totalPages}, (_, i) => String(i+1)), 'end']`
when `totalPages > 0`, else `[]`. -/
def navItems (totalPages : Nat) : List String :=
  if totalPages > 0 then
    "cover" :: ((List.range totalPages).map (fun i => toString (i + 1)) ++ ["end"])
  else []

/-- The predicate of the gate's scan:
`id => !project.scenes[id] || project.scenes[id].status !== 'completed'`. -/
def notCompleted (m : List (String × Scene)) (id : String) : Bool :=
  match findScene m id with
  | none => true
  | some s => s.status != "completed"

/-- JS `Array.prototype.findIndex`, with `none` for the JS result `-1`. -/
def jsFindIndex (p : α → Bool) : List α → Option Nat
  | [] => none
  | a :: l => if p a then some 0 else (jsFindIndex p l).map (· + 1)

/-- `navItems.findIndex(id => !scenes[id] || scenes[id].status !== 'completed')`. -/
def firstPendingSceneIndex (m : List (String × Scene)) (totalPages : Nat) : Option Nat :=
  jsFindIndex (notCompleted m) (navItems totalPages)

/-- `firstPendingSceneIndex !== -1 && index > firstPendingSceneIndex`:
whether the navigation entry at `index` is disabled. -/
def isDisabled (m : List (String × Scene)) (totalPages : Nat) (index : Nat) : Bool :=
  match firstPendingSceneIndex m totalPages with
  | none => false
  | some k => decide (k < index)

/-- One run of the ProjectWorkspace effect: the scene id the active pointer
holds after the effect, given the project and the current pointer. -/
def autoAdvanceEffect (p : Project) (currentSceneId : String) : String :=
  if p.storyText != "" then
    match (navItems p.totalPages).find? (notCompleted p.scenes) with
    | some firstPendingScene =>
      if firstPendingScene != currentSceneId then firstPendingScene else currentSceneId
    | none => currentSceneId
  else "cover"

/-! ## Prompt Builder (buildApiPromptText) and request payload -/

/-- The instruction string built by `buildApiPromptText(project, sceneId, feedback)`,
transcribed verbatim, including the template literal's indentation. -/
def buildApiPromptText (project : Project) (sceneId : String) (feedback : String) : String :=
  let systemInstruction := "You are an expert animation director for children's content. Your task is to analyze a single children's book scene (text and illustration) within the context of an entire story. You will generate a structured JSON object that serves as a technical animation prompt. All descriptions must be child-friendly and safe."
  let sceneText :=
    match (findScene project.scenes sceneId).bind (fun s => s.text) with
    | some t => if t = "" then "" else t
    | none => ""
  let fullStoryContext :=
    if project.storyText = "" then "No story context provided yet." else project.storyText
  let taskInstruction :=
    if sceneId = "cover" then
      "Analyze the attached book cover image. Based on the visuals, generate a dynamic opening title sequence animation. IMPORTANT: Also, extract the book's title and author's name from the cover image text. Populate the 'extracted_title' and 'extracted_author' fields in the JSON. The animation should hint at the story's main themes and characters."
    else if sceneId = "end" then
      "All pages are complete. Generate a concluding animation prompt. This should be a gentle, summary scene, perhaps a final shot of the main character or a pan across the main setting, evoking a feeling of happy resolution. Use the full story context for inspiration."
    else
      "Analyze the attached illustration and its corresponding text for Page " ++ sceneId ++ ". Generate a detailed animation prompt based on these assets, interpreted within the broader context of the full story provided below."
  let taskInstruction :=
    if feedback ≠ "" then
      taskInstruction ++ "\n\nREGENERATION FEEDBACK: The previous attempt was not quite right. Please regenerate the JSON, taking this user feedback into account: \"" ++ feedback ++ "\""
    else taskInstruction
  "\n        SYSTEM INSTRUCTION: " ++ systemInstruction ++
    "\n        FULL STORY CONTEXT:\n        " ++ fullStoryContext ++
    "\n        ---\n        CURRENT SCENE ANALYSIS TASK:\n        - Scene ID: " ++ sceneId ++
    "\n        - Scene Text (if applicable): \"" ++ sceneText ++
    "\"\n        - Task: " ++ taskInstruction ++
    "\n        Now, populate the JSON schema based on this task.\n    "

/-- The fixed response schema declared to the generation service
(`animationPromptSchema`), transcribed as a JSON value. -/
def animationPromptSchema : Json :=
  .obj [("type", .str "OBJECT"),
    ("properties", .obj [
      ("page_number", .obj [("type", .str "NUMBER")]),
      ("scene_summary", .obj [("type", .str "STRING")]),
      ("animation_style", .obj [("type", .str "OBJECT"), ("properties", .obj [
        ("style", .obj [("type", .str "STRING")]),
        ("color_palette", .obj [("type", .str "STRING")]),
        ("tone", .obj [("type", .str "STRING")])])]),
      ("scene", .obj [("type", .str "OBJECT"), ("properties", .obj [
        ("location", .obj [("type", .str "STRING")]),
        ("time_of_day", .obj [("type", .str "STRING")]),
        ("environment_details", .obj [("type", .str "STRING")])])]),
      ("characters", .obj [("type", .str "ARRAY"), ("items", .obj [
        ("type", .str "OBJECT"), ("properties", .obj [
          ("name", .obj [("type", .str "STRING")]),
          ("description", .obj [("type", .str "STRING")]),
          ("initial_expression", .obj [("type", .str "STRING")])])])]),
      ("camera", .obj [("type", .str "OBJECT"), ("properties", .obj [
        ("shot_type", .obj [("type", .str "STRING")]),
        ("movement", .obj [("type", .str "STRING")])])]),
      ("action", .obj [("type", .str "OBJECT"), ("properties", .obj [
        ("primary_action", .obj [("type", .str "STRING")]),
        ("subtle_motions", .obj [("type", .str "STRING")])])]),
      ("audio", .obj [("type", .str "OBJECT"), ("properties", .obj [
        ("sound_effects", .obj [("type", .str "ARRAY"), ("items", .obj [("type", .str "STRING")])]),
        ("dialogue", .obj [("type", .str "OBJECT"), ("properties", .obj [
          ("character", .obj [("type", .str "STRING")]),
          ("line", .obj [("type", .str "STRING")]),
          ("voice_actor", .obj [("type", .str "STRING")])])])])]),
      ("metadata", .obj [("type", .str "OBJECT"), ("properties", .obj [
        ("estimated_duration_seconds", .obj [("type", .str "NUMBER")]),
        ("notes", .obj [("type", .str "STRING")])])]),
      ("extracted_title", .obj [("type", .str "STRING")]),
      ("extracted_author", .obj [("type", .str "STRING")])])]

/-- The request body assembled by `generateScene` before the fetch. -/
def mkPayload (textPrompt imageBase64 : String) : Json :=
  .obj [("contents", .arr [.obj [("role", .str "user"),
      ("parts", .arr ((.obj [("text", .str textPrompt)]) ::
        (if imageBase64 = "" then []
         else [.obj [("inlineData",
           .obj [("mimeType", .str "image/jpeg"), ("data", .str imageBase64)])]])))]]),
    ("generationConfig", .obj [("responseMimeType", .str "application/json"),
      ("responseSchema", animationPromptSchema)])]

/-! ## Generation Client (generateScene) -/

/-- The observable outcome of the single `fetch` round trip: a non-ok
HTTP response with its status line and text body, or an ok response whose
JSON body is `body` (the Gemini endpoint answers JSON on success). -/
inductive FetchResult where
  | httpError (status : Nat) (statusText : String) (body : String) : FetchResult
  | jsonBody (body : Json) : FetchResult

/-- JS property access `v.k`, where `v` may be `undefined` (`none`).
Accessing a property of `undefined`/`null` throws a `TypeError`; `length`
on strings and arrays is their length; any other property of a primitive
or array is `undefined`. -/
def getProp (v : Option Json) (k : String) : Except String (Option Json) :=
  match v with
  | none => .error "TypeError: Cannot read properties of undefined"
  | some .null => .error "TypeError: Cannot read properties of null"
  | some (.obj fs) => .ok ((fs.find? (fun q => q.1 == k)).map (fun q => q.2))
  | some (.str s) => .ok (if k = "length" then some (.num (toString s.length)) else none)
  | some (.arr xs) => .ok (if k = "length" then some (.num (toString xs.length)) else none)
  | some _ => .ok none

/-- JS index access `v[i]`. -/
def getIndex (v : Option Json) (i : Nat) : Except String (Option Json) :=
  match v with
  | none => .error "TypeError: Cannot read properties of undefined"
  | some .null => .error "TypeError: Cannot read properties of null"
  | some (.arr xs) => .ok xs[i]?
  | some (.obj fs) => .ok ((fs.find? (fun q => q.1 == toString i)).map (fun q => q.2))
  | some (.str s) => .ok ((s.data[i]?).map (fun c => .str (String.mk [c])))
  | some _ => .ok none

/-- JS comparison `v > 0` for the candidate-length check: true for a
positive number, false for `undefined` and for zero/negative numbers
(non-numeric values do not occur as `length`). -/
def jsGtZero (v : Option Json) : Bool :=
  match v with
  | some (.num raw) => !(numMantissaZero raw) && !(raw.data.head? == some '-')
  | _ => false

/-- The pure body of `generateScene(project, sceneId, imageBase64, feedback, ...)`:
build the instruction and payload, perform the fetch (whose outcome is the
`resp` argument), check `response.ok`, check
`result.candidates && result.candidates.length > 0`, read
`result.candidates[0].content.parts[0].text` and `JSON.parse` it.
Thrown exceptions are the `.error` messages. -/
def generateSceneCore (p : Project) (sceneId imageBase64 feedback : String)
    (resp : FetchResult) : Except String Json :=
  let textPrompt := buildApiPromptText p sceneId feedback
  let _payload := mkPayload textPrompt imageBase64
  match resp with
  | .httpError status statusText body =>
    .error ("API Error: " ++ toString status ++ " " ++ statusText ++ " - " ++ body)
  | .jsonBody result =>
    match getProp (some result) "candidates" with
    | .error e => .error e
    | .ok candidates =>
      if truthy candidates then
        match getProp candidates "length" with
        | .error e => .error e
        | .ok len =>
          if jsGtZero len then
            match getIndex candidates 0 with
            | .error e => .error e
            | .ok c0 =>
              match getProp c0 "content" with
              | .error e => .error e
              | .ok content =>
                match getProp content "parts" with
                | .error e => .error e
                | .ok parts =>
                  match getIndex parts 0 with
                  | .error e => .error e
                  | .ok p0 =>
                    match getProp p0 "text" with
                    | .error e => .error e
                    | .ok txt =>
                      let jsonText :=
                        match txt with
                        | some v => jsToString v
                        | none => "undefined"
                      (Json.parse jsonText).elim
                        (.error "SyntaxError: Unexpected token in JSON") .ok
          else .error "The model returned an empty or invalid response."
      else .error "The model returned an empty or invalid response."

/-- `generateScene` as observed by its callers: the parsed prompt (or the
thrown error) together with the patches it commits.  The source receives
`updateProject` as an argument but never invokes it, so the patch list is
always empty. -/
def generateScene (p : Project) (sceneId imageBase64 feedback : String)
    (resp : FetchResult) : Except String Json × List ProjectPatch :=
  (generateSceneCore p sceneId imageBase64 feedback resp, [])

/-- The constant URL returned by the simulated `generateVideoFromPrompt`. -/
def simulatedVideoUrl : String :=
  "https://storage.googleapis.com/gtv-videos-bucket/sample/ForBiggerFun.mp4"

/-- `generateVideoFromPrompt(prompt)`: the stub always resolves to the
sample URL and never throws. -/
def generateVideoFromPrompt (_prompt : Json) : String := simulatedVideoUrl

/-! ## Pipeline Orchestrator: handleGenerate (SceneGeneratorUI) -/

/-- The scene written on success:
`{ ...project.scenes[sceneId], status: 'completed', prompt: newPrompt, videoUrl }`
(spread of `undefined` when the scene is absent contributes nothing). -/
def completedScene (m : List (String × Scene)) (sceneId : String) (newPrompt : Json) : Scene :=
  let base := (findScene m sceneId).getD { status := "" }
  { base with
    status := "completed"
    prompt := some newPrompt
    videoUrl := some simulatedVideoUrl }

/-- The `try` block of `handleGenerate`: generation, video synthesis, and
assembly of the single `projectUpdates` patch.  For the cover scene the
source reads `newPrompt.extracted_title` (a read that throws on a `null`
prompt) and, when truthy, also sets `name`/`author`. -/
def handleGenerateTry (p : Project) (sceneId imageBase64 feedback : String)
    (resp : FetchResult) : Except String ProjectPatch :=
  match generateSceneCore p sceneId imageBase64 feedback resp with
  | .error e => .error e
  | .ok newPrompt =>
    let videoUrl := generateVideoFromPrompt newPrompt
    let updatedScenes := setScene p.scenes sceneId
      { (findScene p.scenes sceneId).getD { status := "" } with
        status := "completed"
        prompt := some newPrompt
        videoUrl := some videoUrl }
    if sceneId = "cover" then
      match getProp (some newPrompt) "extracted_title" with
      | .error e => .error e
      | .ok title =>
        if truthy title then
          match getProp (some newPrompt) "extracted_author" with
          | .error e => .error e
          | .ok authorV =>
            .ok { scenes := some updatedScenes
                  name := some (jsValOr title "")
                  author := some (jsValOr authorV "Unknown Author") }
        else .ok { scenes := some updatedScenes }
    else .ok { scenes := some updatedScenes }

/-- `handleGenerate` of `SceneGeneratorUI`: the illustration guard
(`(sceneId !== 'end' && !imageBase64) && !isRegenerating`), then the try
block; the result is the list of `updateProject` calls made and the
`setError` message, if any. -/
def handleGenerate (p : Project) (sceneId imageBase64 feedback : String)
    (isRegenerating : Bool) (resp : FetchResult) : List ProjectPatch × Option String :=
  if ((sceneId != "end") && (imageBase64 == "")) && !isRegenerating then
    ([], some "Please upload an illustration for this page.")
  else
    match handleGenerateTry p sceneId imageBase64 feedback resp with
    | .ok patch => ([patch], none)
    | .error e => ([], some ("Operation failed: " ++ e ++ "."))

/-! ## Pipeline Orchestrator: handleFileChange (LayoutUploader) -/

/-- The cover scene written by ingestion's chained cover generation:
`cover: { status: 'completed', prompt: newPrompt, videoUrl }` (a fresh
object, no spread). -/
def coverCompletedScene (newPrompt : Json) : Scene :=
  { status := "completed"
    prompt := some newPrompt
    videoUrl := some simulatedVideoUrl }

/-- The `try` block of `handleFileChange` from the point where the
document text has been extracted: the emptiness check, page splitting, the
initial all-pending scene map, the chained cover generation and video
synthesis, and the single final `updateProject` payload
(`{...initialProjectState, scenes: finalScenes, name, author}`). -/
def handleFileChangeTry (p : Project) (text coverImageBase64 : String)
    (resp : FetchResult) : Except String ProjectPatch :=
  if jsTrim text = "" then .error "File is empty or text could not be extracted."
  else
    let totalPages := ingestTotal text
    let scenes := ingestMapOf text
    let initialProjectState : Project :=
      { p with
        storyText := text
        totalPages := totalPages
        scenes := scenes }
    match generateSceneCore initialProjectState "cover" coverImageBase64 "" resp with
    | .error e => .error e
    | .ok newPrompt =>
      let videoUrl := generateVideoFromPrompt newPrompt
      let finalScenes := setScene scenes "cover"
        { status := "completed"
          prompt := some newPrompt
          videoUrl := some videoUrl }
      match getProp (some newPrompt) "extracted_title" with
      | .error e => .error e
      | .ok title =>
        match getProp (some newPrompt) "extracted_author" with
        | .error e => .error e
        | .ok authorV =>
          .ok { storyText := some text
                totalPages := some totalPages
                scenes := some finalScenes
                name := some (jsValOr title p.name)
                author := some (jsValOr authorV p.author) }

/-- `handleFileChange` as observed through `updateProject`/`setError`,
for an uploaded PDF whose extracted text is `text` and whose rendered
first page is `coverImageBase64`. -/
def handleFileChange (p : Project) (text coverImageBase64 : String)
    (resp : FetchResult) : List ProjectPatch × Option String :=
  match handleFileChangeTry p text coverImageBase64 resp with
  | .ok patch => ([patch], none)
  | .error e => ([], some e)

/-! ## Reachable project states and the scene invariant -/

/-- Project states reachable through the program's operations: project
creation, document ingestion (with any service behaviour), and scene
generation / regeneration (with any scene id, inputs, and service
behaviour).  Each operation commits exactly the patches the corresponding
handler passes to `updateProject`. -/
inductive Reachable : Project → Prop where
  | init (pid createdAt : String) : Reachable (newProject pid createdAt)
  | upload {p : Project} (text img : String) (resp : FetchResult) :
      Reachable p → Reachable (applyPatches p (handleFileChange p text img resp).1)
  | generate {p : Project} (sceneId img fb : String) (regen : Bool) (resp : FetchResult) :
      Reachable p → Reachable (applyPatches p (handleGenerate p sceneId img fb regen resp).1)

/-- The claim's reading of "set (non-null/present)" for the prompt field:
assigned, and not the JSON value `null`. -/
def promptPresent (v : Option Json) : Prop := v ≠ none ∧ v ≠ some Json.null

/-- C1 as stated: a scene is completed iff its prompt is set (non-null,
present) and its video URL is set. -/
def SceneStrictInv (s : Scene) : Prop :=
  s.status = "completed" ↔ (promptPresent s.prompt ∧ s.videoUrl.isSome)

def ProjStrictInv (p : Project) : Prop :=
  ∀ id s, findScene p.scenes id = some s → SceneStrictInv s

/-- The invariant the code actually maintains: a scene is completed iff
both fields have been assigned (the prompt may be the JSON value `null`
when the service's candidate text parses to `null`). -/
def SceneInv (s : Scene) : Prop :=
  s.status = "completed" ↔ (s.prompt.isSome ∧ s.videoUrl.isSome)

/-! ## Concrete states used by witnesses and counterexamples -/

/-- A generation-service response whose single candidate's part text is `s`. -/
def mkCandidateBody (s : String) : Json :=
  .obj [("candidates", .arr [.obj [("content",
    .obj [("parts", .arr [.obj [("text", .str s)]])])]])]

def mkCandidateResp (s : String) : FetchResult := .jsonBody (mkCandidateBody s)

/-- A freshly created project. -/
def proj0 : Project := newProject "proj_1" "2024-01-01T00:00:00.000Z"

/-- The state after ingesting a one-page document "a" whose chained cover
generation succeeded with the degenerate (but accepted) payload `1`. -/
def proj1 : Project :=
  applyPatches proj0 (handleFileChange proj0 "a" "img0" (mkCandidateResp "1")).1

/-- The state after generating page "1" of `proj1` when the service's
candidate text is the JSON literal `null`. -/
def proj2 : Project :=
  applyPatches proj1 (handleGenerate proj1 "1" "img1" "" false (mkCandidateResp "null")).1

/-- The record stored for scene "1" in `proj2`. -/
def proj2SceneOne : Scene :=
  { status := "completed"
    text := some "a"
    prompt := some Json.null
    videoUrl := some simulatedVideoUrl }

/-- A candidate payload carrying an extracted title. -/
def fooJsonText : String := "\x7b\"extracted_title\":\"Foo\"\x7d"

/-- `JSON.parse(fooJsonText)`. -/
def fooPrompt : Json := .obj [("extracted_title", .str "Foo")]

/-! ## Helper lemmas -/

theorem mem_of_findScene {m : List (String × Scene)} {k : String} {s : Scene}
    (h : findScene m k = some s) : ∃ q ∈ m, q.2 = s := by
  unfold findScene at h
  rcases Option.map_eq_some'.mp h with ⟨q, hq, rfl⟩
  exact ⟨q, List.mem_of_find?_eq_some hq, rfl⟩

theorem setScene_mem {m : List (String × Scene)} {k : String} {v : Scene}
    {q : String × Scene} (h : q ∈ setScene m k v) : q = (k, v) ∨ q ∈ m := by
  unfold setScene at h
  by_cases hany : (m.any (fun r => r.1 == k)) = true
  · rw [if_pos hany] at h
    rcases List.mem_map.mp h with ⟨a, ham, hq⟩
    by_cases ha : (a.1 == k) = true
    · rw [if_pos ha] at hq; exact Or.inl hq.symm
    · rw [if_neg ha] at hq; exact Or.inr (hq ▸ ham)
  · rw [if_neg hany] at h
    rcases List.mem_append.mp h with hm | hs
    · exact Or.inr hm
    · exact Or.inl (by simpa using hs)

theorem ingestMap_mem {pages : List String} {tp : Nat} {q : String × Scene}
    (h : q ∈ ingestMap pages tp) :
    q.2.status = "pending" ∧ q.2.prompt = none ∧ q.2.videoUrl = none := by
  unfold ingestMap at h
  simp only [List.mem_cons] at h
  rcases h with rfl | rfl | h
  · exact ⟨rfl, rfl, rfl⟩
  · exact ⟨rfl, rfl, rfl⟩
  · rcases List.mem_map.mp h with ⟨i, _, rfl⟩
    exact ⟨rfl, rfl, rfl⟩

theorem jsFindIndex_some {α : Type} {p : α → Bool} {l : List α} {k : Nat}
    (h : jsFindIndex p l = some k) :
    (∀ j, j < k → ∀ x, l[j]? = some x → p x = false) ∧
    ∃ x, l[k]? = some x ∧ p x = true := by
  induction l generalizing k with
  | nil => simp [jsFindIndex] at h
  | cons a t ih =>
    unfold jsFindIndex at h
    by_cases hpa : p a = true
    · rw [if_pos hpa] at h
      obtain rfl : (0 : Nat) = k := by simpa using h
      exact ⟨fun j hj => absurd hj (Nat.not_lt_zero j), ⟨a, by simp, hpa⟩⟩
    · rw [if_neg hpa] at h
      rcases Option.map_eq_some'.mp h with ⟨k', hk', rfl⟩
      obtain ⟨h1, x, hx, hpx⟩ := ih hk'
      refine ⟨?_, ⟨x, by simpa using hx, hpx⟩⟩
      intro j hj y hy
      cases j with
      | zero =>
        obtain rfl : a = y := by simpa using hy
        simpa using hpa
      | succ j' => exact h1 j' (by omega) y (by simpa using hy)

theorem jsFindIndex_none {α : Type} {p : α → Bool} {l : List α}
    (h : jsFindIndex p l = none) : ∀ (j : Nat) (x : α), l[j]? = some x → p x = false := by
  induction l with
  | nil => intro j x hx; simp at hx
  | cons a t ih =>
    unfold jsFindIndex at h
    by_cases hpa : p a = true
    · rw [if_pos hpa] at h; cases h
    · rw [if_neg hpa] at h
      intro j x hx
      cases j with
      | zero =>
        obtain rfl : a = x := by simpa using hx
        simpa using hpa
      | succ j' => exact ih (by simpa using h) j' x (by simpa using hx)

theorem getProp_eq_getField {j : Json} {k : String} (hj : j ≠ Json.null)
    (hk : k ≠ "length") : getProp (some j) k = .ok (j.getField k) := by
  cases j with
  | null => exact absurd rfl hj
  | obj fs => rfl
  | str s => simp [getProp, Json.getField, hk]
  | arr xs => simp [getProp, Json.getField, hk]
  | bool b => rfl
  | num raw => rfl

theorem generateSceneCore_mkCandidate (p : Project) (sceneId img fb s : String) :
    generateSceneCore p sceneId img fb (mkCandidateResp s) =
      (Json.parse s).elim (.error "SyntaxError: Unexpected token in JSON") .ok := by
  with_unfolding_all rfl

theorem handleGenerateTry_ok {p : Project} {sceneId imageBase64 feedback : String}
    {resp : FetchResult} {pa : ProjectPatch}
    (h : handleGenerateTry p sceneId imageBase64 feedback resp = .ok pa) :
    ∃ np, generateSceneCore p sceneId imageBase64 feedback resp = .ok np ∧
      pa.scenes = some (setScene p.scenes sceneId (completedScene p.scenes sceneId np)) := by
  unfold handleGenerateTry at h
  split at h
  · exact absurd h (by simp)
  next np hg =>
    refine ⟨np, hg, ?_⟩
    dsimp only at h
    split at h
    · split at h
      · exact absurd h (by simp)
      · split at h
        · split at h
          · exact absurd h (by simp)
          · obtain rfl : _ = pa := by simpa using h
            rfl
        · obtain rfl : _ = pa := by simpa using h
          rfl
    · obtain rfl : _ = pa := by simpa using h
      rfl

theorem handleFileChangeTry_ok {p : Project} {text img : String}
    {resp : FetchResult} {pa : ProjectPatch}
    (h : handleFileChangeTry p text img resp = .ok pa) :
    jsTrim text ≠ "" ∧
    ∃ np title authorV,
      generateSceneCore
        { p with storyText := text, totalPages := ingestTotal text, scenes := ingestMapOf text }
        "cover" img "" resp = .ok np ∧
      getProp (some np) "extracted_title" = .ok title ∧
      getProp (some np) "extracted_author" = .ok authorV ∧
      pa = { storyText := some text
             totalPages := some (ingestTotal text)
             scenes := some (setScene (ingestMapOf text) "cover" (coverCompletedScene np))
             name := some (jsValOr title p.name)
             author := some (jsValOr authorV p.author) } := by
  unfold handleFileChangeTry at h
  split at h
  · exact absurd h (by simp)
  next htrim =>
    refine ⟨htrim, ?_⟩
    dsimp only at h
    split at h
    · exact absurd h (by simp)
    next np hg =>
      split at h
      · exact absurd h (by simp)
      next title ht =>
        split at h
        · exact absurd h (by simp)
        next authorV ha =>
          obtain rfl : _ = pa := by simpa using h
          exact ⟨np, title, authorV, hg, ht, ha, rfl⟩

theorem reachable_scene_inv {p : Project} (h : Reachable p) :
    ∀ q ∈ p.scenes, SceneInv q.2 := by
  induction h with
  | init pid createdAt =>
    intro q hq
    simp [newProject] at hq
  | upload text img resp _ ih =>
    rename_i p _
    cases hft : handleFileChangeTry p text img resp with
    | error e =>
      have h1 : (handleFileChange p text img resp).1 = [] := by
        unfold handleFileChange; rw [hft]
      rw [h1]
      simpa [applyPatches] using ih
    | ok pa =>
      have h1 : (handleFileChange p text img resp).1 = [pa] := by
        unfold handleFileChange; rw [hft]
      rw [h1]
      obtain ⟨-, np, title, authorV, -, -, -, hpa⟩ := handleFileChangeTry_ok hft
      subst hpa
      intro q hq
      simp only [applyPatches, List.foldl, applyPatch, Option.getD_some] at hq
      rcases setScene_mem hq with rfl | hq'
      · simp [SceneInv, coverCompletedScene]
      · obtain ⟨h1, h2, h3⟩ := ingestMap_mem (by simpa [ingestMapOf] using hq')
        simp only [SceneInv, h1, h2, h3, Option.isSome_none]
        decide
  | generate sceneId img fb regen resp _ ih =>
    rename_i p _
    by_cases hguard : ((((sceneId != "end") && (img == "")) && !regen) = true)
    · have h1 : (handleGenerate p sceneId img fb regen resp).1 = [] := by
        unfold handleGenerate; rw [if_pos hguard]
      rw [h1]
      simpa [applyPatches] using ih
    · cases hgt : handleGenerateTry p sceneId img fb resp with
      | error e =>
        have h1 : (handleGenerate p sceneId img fb regen resp).1 = [] := by
          unfold handleGenerate; rw [if_neg hguard, hgt]
        rw [h1]
        simpa [applyPatches] using ih
      | ok pa =>
        have h1 : (handleGenerate p sceneId img fb regen resp).1 = [pa] := by
          unfold handleGenerate; rw [if_neg hguard, hgt]
        rw [h1]
        obtain ⟨np, -, hps⟩ := handleGenerateTry_ok hgt
        intro q hq
        simp only [applyPatches, List.foldl, applyPatch, hps, Option.getD_some] at hq
        rcases setScene_mem hq with rfl | hq'
        · simp [SceneInv, completedScene]
        · exact ih q hq'

/-! ## Claim C1 -/

/-- C1 (amended): in every reachable project state, a scene's status is
`completed` exactly when both its `prompt` and `videoUrl` fields have been
assigned (the prompt may be the JSON value `null` in the degenerate case
settled by the counterexample); and the scene map created by ingestion has
every scene `pending` with neither field assigned. -/
theorem c1_completed_iff_fields_assigned :
    (∀ p, Reachable p → ∀ id s, findScene p.scenes id = some s →
      (s.status = "completed" ↔ (s.prompt.isSome ∧ s.videoUrl.isSome))) ∧
    (∀ (pages : List String) (tp : Nat) (id : String) (s : Scene),
      findScene (ingestMap pages tp) id = some s →
      s.status = "pending" ∧ s.prompt = none ∧ s.videoUrl = none) := by
  constructor
  · intro p hp id s hs
    obtain ⟨q, hq, rfl⟩ := mem_of_findScene hs
    exact reachable_scene_inv hp q hq
  · intro pages tp id s hs
    obtain ⟨q, hq, rfl⟩ := mem_of_findScene hs
    exact ingestMap_mem hq

/-- C1, claim as stated is false: `proj2` is reachable (ingest a one-page
document, then generate page "1" with a service response whose candidate
text is the JSON literal `null`), and its scene "1" is `completed` while
its `prompt` field holds JSON `null` — not "set (non-null)". -/
theorem c1_null_prompt_counterexample :
    Reachable proj2 ∧ ¬ ProjStrictInv proj2 := by
  constructor
  · exact Reachable.generate "1" "img1" "" false (mkCandidateResp "null")
      (Reachable.upload "a" "img0" (mkCandidateResp "1")
        (Reachable.init "proj_1" "2024-01-01T00:00:00.000Z"))
  · intro hinv
    have hs : findScene proj2.scenes "1" = some proj2SceneOne := by
      with_unfolding_all rfl
    have h1 := (hinv "1" proj2SceneOne hs).mp rfl
    exact h1.1.2 rfl

/-- C1 witness: the amended invariant evaluated on the reachable state
`proj1` at its completed cover scene. -/
theorem c1_witness :
    findScene proj1.scenes "cover" = some (coverCompletedScene (Json.num "1")) ∧
    ((coverCompletedScene (Json.num "1")).status = "completed" ↔
      ((coverCompletedScene (Json.num "1")).prompt.isSome ∧
        (coverCompletedScene (Json.num "1")).videoUrl.isSome)) := by
  constructor
  · with_unfolding_all rfl
  · exact c1_completed_iff_fields_assigned.1 proj1
      (Reachable.upload "a" "img0" (mkCandidateResp "1")
        (Reachable.init "proj_1" "2024-01-01T00:00:00.000Z"))
      "cover" _ (by with_unfolding_all rfl)

/-! ## Claim C8 -/

/-- C8, claim as stated is false: in the reachable state `proj1` the cover
scene is completed, yet one run of the workspace effect moves the active
pointer away from it, to the first pending scene "1" — there is no
"viewing a completed scene" exception in this variant's effect. -/
theorem c8_counterexample :
    Reachable proj1 ∧ notCompleted proj1.scenes "cover" = false ∧
    autoAdvanceEffect proj1 "cover" = "1" := by
  refine ⟨?_, ?_, ?_⟩
  · exact Reachable.upload "a" "img0" (mkCandidateResp "1")
      (Reachable.init "proj_1" "2024-01-01T00:00:00.000Z")
  · with_unfolding_all rfl
  · with_unfolding_all rfl

/-- C8 (amended): after any scene-store mutation on an ingested project the
effect sets the active pointer to the first non-completed scene whenever
one exists — also when the caller is viewing an already-completed scene —
and leaves the pointer in place only when every scene is completed; on a
non-ingested project it resets the pointer to "cover". -/
theorem c8_auto_advance (p : Project) (cur : String) :
    (p.storyText ≠ "" →
      (match (navItems p.totalPages).find? (notCompleted p.scenes) with
       | some f => autoAdvanceEffect p cur = f
       | none => autoAdvanceEffect p cur = cur)) ∧
    (p.storyText = "" → autoAdvanceEffect p cur = "cover") := by
  constructor
  · intro hst
    have hb : (p.storyText != "") = true := by simpa using hst
    cases hf : (navItems p.totalPages).find? (notCompleted p.scenes) with
    | some f =>
      unfold autoAdvanceEffect
      rw [if_pos hb]
      simp only [hf]
      by_cases hfc : (f != cur) = true
      · rw [if_pos hfc]
      · rw [if_neg hfc]
        have : f = cur := by simpa using hfc
        exact this.symm
    | none =>
      unfold autoAdvanceEffect
      rw [if_pos hb]
      simp only [hf]
  · intro hst
    unfold autoAdvanceEffect
    rw [if_neg (by simp [hst])]

/-- C8 witness: the amended behaviour evaluated on a non-ingested project. -/
theorem c8_witness : autoAdvanceEffect proj0 "anywhere" = "cover" :=
  (c8_auto_advance proj0 "anywhere").2 rfl

/-! ## Claim C6 -/

/-- C6, claim as stated is false: on a document whose extracted text "a" is
non-blank (a successful Document Ingestor run), a failing chained cover
generation (HTTP 500) leaves the persisted project untouched — the
ingestion transition is NOT committed regardless of what happens
afterwards: `storyText` stays empty and no patch is applied. -/
theorem c6_counterexample :
    handleFileChange proj0 "a" "" (FetchResult.httpError 500 "Internal Server Error" "boom") =
      ([], some "API Error: 500 Internal Server Error - boom") ∧
    applyPatches proj0 (handleFileChange proj0 "a" ""
      (FetchResult.httpError 500 "Internal Server Error" "boom")).1 = proj0 ∧
    proj0.storyText = "" := by
  refine ⟨?_, ?_, rfl⟩
  · with_unfolding_all rfl
  · with_unfolding_all rfl

/-- C6 (amended): for a document whose extracted text is non-blank,
ingestion chains immediately into cover generation; it commits nothing
when any step fails (a failing service call surfaces the service error and
leaves the project as it was), and on success it commits one single patch
populating `storyText`/`totalPages`, installing the scene map with the
cover completed and all other scenes pending, and setting `name`/`author`
from the extracted title/author when truthy, otherwise keeping the
previous values. -/
theorem c6_ingestion_commit (p : Project) (text img : String) (resp : FetchResult)
    (htext : jsTrim text ≠ "") :
    ((handleFileChange p text img resp).2.isSome →
      (handleFileChange p text img resp).1 = [] ∧
      applyPatches p (handleFileChange p text img resp).1 = p) ∧
    (∀ (st : Nat) (stx bd : String),
      handleFileChange p text img (.httpError st stx bd) =
        ([], some ("API Error: " ++ toString st ++ " " ++ stx ++ " - " ++ bd))) ∧
    ((handleFileChange p text img resp).2 = none →
      ∃ pa np title authorV, (handleFileChange p text img resp).1 = [pa] ∧
        getProp (some np) "extracted_title" = .ok title ∧
        getProp (some np) "extracted_author" = .ok authorV ∧
        pa.storyText = some text ∧
        pa.totalPages = some (ingestTotal text) ∧
        pa.scenes = some (setScene (ingestMapOf text) "cover" (coverCompletedScene np)) ∧
        pa.name = some (jsValOr title p.name) ∧
        pa.author = some (jsValOr authorV p.author)) := by
  refine ⟨?_, ?_, ?_⟩
  · cases hft : handleFileChangeTry p text img resp with
    | ok pa =>
      have h1 : handleFileChange p text img resp = ([pa], none) := by
        unfold handleFileChange; rw [hft]
      rw [h1]
      intro hs
      simp at hs
    | error e =>
      have h1 : handleFileChange p text img resp = ([], some e) := by
        unfold handleFileChange; rw [hft]
      rw [h1]
      intro _
      exact ⟨rfl, rfl⟩
  · intro st stx bd
    unfold handleFileChange handleFileChangeTry
    rw [if_neg htext]
    with_unfolding_all rfl
  · cases hft : handleFileChangeTry p text img resp with
    | error e =>
      have h1 : handleFileChange p text img resp = ([], some e) := by
        unfold handleFileChange; rw [hft]
      rw [h1]
      intro hc
      simp at hc
    | ok pa =>
      have h1 : handleFileChange p text img resp = ([pa], none) := by
        unfold handleFileChange; rw [hft]
      rw [h1]
      intro _
      obtain ⟨-, np, title, authorV, -, ht, ha, hpa⟩ := handleFileChangeTry_ok hft
      subst hpa
      exact ⟨_, np, title, authorV, rfl, ht, ha, rfl, rfl, rfl, rfl, rfl⟩

/-- C6 witness: the amended behaviour at a concrete failing ingestion. -/
theorem c6_witness :
    handleFileChange proj0 "b" "i" (.httpError 404 "Not Found" "x") =
      ([], some ("API Error: " ++ toString 404 ++ " " ++ "Not Found" ++ " - " ++ "x")) :=
  ((c6_ingestion_commit proj0 "b" "i" (.httpError 404 "Not Found" "x")
    (by decide)).2.1) 404 "Not Found" "x"

/-! ## Claim C3 -/

/-- C3 (confirmed): whenever any step of a generation or regeneration
attempt throws — the missing-illustration guard, the service call, the
candidate checks, the parse, or the cover title read — `handleGenerate`
surfaces the error and commits no patch, so the persisted project is left
exactly as it was; on success it commits exactly one patch, which installs
in the scene map the target scene with `status`, `prompt`, and `videoUrl`
all set in that same single update. -/
theorem c3_failure_atomicity (p : Project) (sceneId img fb : String)
    (regen : Bool) (resp : FetchResult) :
    ((handleGenerate p sceneId img fb regen resp).2.isSome →
      (handleGenerate p sceneId img fb regen resp).1 = [] ∧
      applyPatches p (handleGenerate p sceneId img fb regen resp).1 = p) ∧
    ((handleGenerate p sceneId img fb regen resp).2 = none →
      ∃ pa np, (handleGenerate p sceneId img fb regen resp).1 = [pa] ∧
        generateSceneCore p sceneId img fb resp = .ok np ∧
        pa.scenes = some (setScene p.scenes sceneId (completedScene p.scenes sceneId np)) ∧
        (completedScene p.scenes sceneId np).status = "completed" ∧
        (completedScene p.scenes sceneId np).prompt = some np ∧
        (completedScene p.scenes sceneId np).videoUrl = some simulatedVideoUrl) := by
  by_cases hguard : ((((sceneId != "end") && (img == "")) && !regen) = true)
  · have h1 : handleGenerate p sceneId img fb regen resp =
        ([], some "Please upload an illustration for this page.") := by
      unfold handleGenerate; rw [if_pos hguard]
    rw [h1]
    constructor
    · intro _; exact ⟨rfl, rfl⟩
    · intro hc; simp at hc
  · cases hgt : handleGenerateTry p sceneId img fb resp with
    | error e =>
      have h1 : handleGenerate p sceneId img fb regen resp =
          ([], some ("Operation failed: " ++ e ++ ".")) := by
        unfold handleGenerate; rw [if_neg hguard, hgt]
      rw [h1]
      constructor
      · intro _; exact ⟨rfl, rfl⟩
      · intro hc; simp at hc
    | ok pa =>
      have h1 : handleGenerate p sceneId img fb regen resp = ([pa], none) := by
        unfold handleGenerate; rw [if_neg hguard, hgt]
      rw [h1]
      constructor
      · intro hs; simp at hs
      · intro _
        obtain ⟨np, hg, hps⟩ := handleGenerateTry_ok hgt
        exact ⟨pa, np, rfl, hg, hps, rfl, rfl, rfl⟩

/-- C3 witness: a concrete failed attempt (HTTP 500 regeneration) leaves
the project unchanged. -/
theorem c3_witness :
    (handleGenerate proj1 "cover" "" "bigger smile" true
        (.httpError 500 "Internal Server Error" "boom")).1 = [] ∧
    applyPatches proj1 (handleGenerate proj1 "cover" "" "bigger smile" true
        (.httpError 500 "Internal Server Error" "boom")).1 = proj1 :=
  (c3_failure_atomicity proj1 "cover" "" "bigger smile" true
    (.httpError 500 "Internal Server Error" "boom")).1 (by with_unfolding_all rfl)

/-! ## Claim C5 -/

/-- C5 (confirmed): a first-generation request (`isRegenerating = false`)
on a non-`end` scene with no uploaded illustration fails with the
missing-illustration error before any service call — the result does not
depend on the service response and no patch is committed — while a
regeneration request (`isRegenerating = true`) bypasses the illustration
guard entirely and proceeds to the generation chain. -/
theorem c5_missing_illustration (p : Project) (sceneId fb : String) (resp : FetchResult) :
    (sceneId ≠ "end" →
      handleGenerate p sceneId "" fb false resp =
        ([], some "Please upload an illustration for this page.")) ∧
    (∀ img : String,
      handleGenerate p sceneId img fb true resp =
        (match handleGenerateTry p sceneId img fb resp with
         | .ok pa => ([pa], none)
         | .error e => ([], some ("Operation failed: " ++ e ++ ".")))) := by
  constructor
  · intro hne
    unfold handleGenerate
    rw [if_pos (by simp [hne])]
  · intro img
    unfold handleGenerate
    rw [if_neg (by simp)]

/-- C5 witness: page "1" of `proj1`, no illustration, first generation —
rejected with the scene untouched even though the service would answer. -/
theorem c5_witness :
    handleGenerate proj1 "1" "" "" false (mkCandidateResp "1") =
      ([], some "Please upload an illustration for this page.") :=
  (c5_missing_illustration proj1 "1" "" (mkCandidateResp "1")).1 (by decide)

/-! ## Claim C2 -/

/-- C2 (confirmed): for every NavItems sequence and scene map, the entry at
index `i` is enabled exactly when every scene at an index strictly below
`i` is completed; equivalently, when a first non-completed index `k`
exists, the enabled set is exactly the indices `0..k`, and when every
scene is completed every entry is enabled. -/
theorem c2_navigation_gate (m : List (String × Scene)) (tp i : Nat)
    (_hi : i < (navItems tp).length) :
    ((isDisabled m tp i = false) ↔
      (∀ j, j < i → ∀ id, (navItems tp)[j]? = some id → notCompleted m id = false)) ∧
    (match firstPendingSceneIndex m tp with
     | some k => (isDisabled m tp i = false ↔ i ≤ k)
     | none => isDisabled m tp i = false) := by
  cases hfp : firstPendingSceneIndex m tp with
  | none =>
    have hall := jsFindIndex_none (by simpa [firstPendingSceneIndex] using hfp)
    have hdis : isDisabled m tp i = false := by simp [isDisabled, hfp]
    refine ⟨?_, by simp only [hfp]; exact hdis⟩
    constructor
    · intro _ j _ id hid
      exact hall j id hid
    · intro _
      exact hdis
  | some k =>
    obtain ⟨hbefore, x, hx, hpx⟩ :=
      jsFindIndex_some (by simpa [firstPendingSceneIndex] using hfp)
    have hdis : isDisabled m tp i = decide (k < i) := by simp [isDisabled, hfp]
    have hiff : isDisabled m tp i = false ↔ i ≤ k := by
      rw [hdis, decide_eq_false_iff_not]
      exact Nat.not_lt
    refine ⟨?_, by simp only [hfp]; exact hiff⟩
    rw [hiff]
    constructor
    · intro hik j hj id hid
      exact hbefore j (by omega) id hid
    · intro hcomp
      by_contra hne
      have := hcomp k (by omega) x hx
      rw [this] at hpx
      cases hpx

/-- C2 witness: in `proj1` (cover completed, page "1" pending) the entry
beyond the first pending index is disabled: enabled iff `2 ≤ 1`. -/
theorem c2_witness :
    isDisabled proj1.scenes proj1.totalPages 2 = false ↔ (2 : Nat) ≤ 1 := by
  have h := (c2_navigation_gate proj1.scenes proj1.totalPages 2
    (by with_unfolding_all decide)).2
  have e : firstPendingSceneIndex proj1.scenes proj1.totalPages = some 1 := by
    with_unfolding_all rfl
  rw [e] at h
  exact h

/-! ## Claim C4 -/

/-- C4 (confirmed): for a document whose extracted text is non-blank after
trimming, ingestion splits the text on the blank-line separator regex and
discards segments that are blank after trimming; `totalPages` is the
number of remaining segments, or 1 when none remain; and the produced
scene map is exactly "cover" and "end" plus pages "1".."N", each pending
with its corresponding segment text — `totalPages + 2` scenes in all. -/
theorem c4_ingestion_split (text : String) (_htext : jsTrim text ≠ "") :
    (splitPages text = (rawSegments text).filter (fun s => jsTrim s != "")) ∧
    (∀ s ∈ splitPages text, jsTrim s ≠ "") ∧
    ((splitPages text).length > 0 → ingestTotal text = (splitPages text).length) ∧
    ((splitPages text).length = 0 → ingestTotal text = 1) ∧
    (ingestMapOf text).length = ingestTotal text + 2 ∧
    findScene (ingestMapOf text) "cover" = some pendingScene ∧
    findScene (ingestMapOf text) "end" = some pendingScene ∧
    ingestMapOf text = ("cover", pendingScene) :: ("end", pendingScene) ::
      (List.range (ingestTotal text)).map
        (fun i => (toString (i + 1),
          { status := "pending", text := some ((splitPages text).getD i "") })) := by
  refine ⟨rfl, ?_, ?_, ?_, ?_, ?_, ?_, rfl⟩
  · intro s hs
    have := (List.mem_filter.mp hs).2
    simpa using this
  · intro h
    simp [ingestTotal, h]
  · intro h
    simp [ingestTotal, h]
  · unfold ingestMapOf ingestMap
    simp [List.length_map, List.length_range]
  · with_unfolding_all rfl
  · with_unfolding_all rfl

/-- C4 witness: Scenario A, the two-page document "Page1\n\nPage2". -/
theorem c4_witness :
    jsTrim "Page1\n\nPage2" ≠ "" ∧
    (ingestMapOf "Page1\n\nPage2").length = ingestTotal "Page1\n\nPage2" + 2 :=
  ⟨by decide, (c4_ingestion_split "Page1\n\nPage2" (by decide)).2.2.2.2.1⟩

/-! ## Claim C7 -/

/-- C7 (confirmed): a successful cover generation whose parsed response
carries a truthy `extracted_title` commits, in the same single patch as
the completed scene, `name` set to that title and `author` set from
`extracted_author` (defaulting to "Unknown Author" when absent/falsy);
when the parsed response has no truthy `extracted_title`, generation still
completes and the patch touches neither `name` nor `author`. -/
theorem c7_cover_title_update :
    (∀ (p : Project) (img fb : String) (regen : Bool) (s : String) (np : Json) (t : String),
      img ≠ "" → Json.parse s = some np →
      Json.getField np "extracted_title" = some (.str t) → t ≠ "" →
      handleGenerate p "cover" img fb regen (mkCandidateResp s) =
        ([{ scenes := some (setScene p.scenes "cover" (completedScene p.scenes "cover" np))
            name := some t
            author := some (jsValOr (Json.getField np "extracted_author") "Unknown Author") }],
          none)) ∧
    (∀ (p : Project) (img fb : String) (regen : Bool) (s : String) (np : Json),
      img ≠ "" → Json.parse s = some np → np ≠ Json.null →
      truthy (Json.getField np "extracted_title") = false →
      handleGenerate p "cover" img fb regen (mkCandidateResp s) =
        ([{ scenes := some (setScene p.scenes "cover" (completedScene p.scenes "cover" np)) }],
          none)) := by
  constructor
  · intro p img fb regen s np t himg hparse ht htne
    have hnp : np ≠ Json.null := by
      intro h
      subst h
      simp [Json.getField] at ht
    have hcore : generateSceneCore p "cover" img fb (mkCandidateResp s) = .ok np := by
      rw [generateSceneCore_mkCandidate, hparse]
      rfl
    have htitle : getProp (some np) "extracted_title" = .ok (some (Json.str t)) := by
      rw [getProp_eq_getField hnp (by decide), ht]
    have hauthor : getProp (some np) "extracted_author" =
        .ok (Json.getField np "extracted_author") :=
      getProp_eq_getField hnp (by decide)
    have htruthy : truthy (some (Json.str t)) = true := by
      simpa [truthy, Json.truthyV] using htne
    have htry : handleGenerateTry p "cover" img fb (mkCandidateResp s) = .ok
        { scenes := some (setScene p.scenes "cover" (completedScene p.scenes "cover" np))
          name := some t
          author := some (jsValOr (Json.getField np "extracted_author") "Unknown Author") } := by
      unfold handleGenerateTry
      rw [hcore]
      dsimp only
      rw [if_pos rfl, htitle]
      dsimp only
      rw [if_pos htruthy, hauthor]
      dsimp only
      simp [jsValOr, Json.truthyV, jsToString, htne, completedScene, generateVideoFromPrompt]
    unfold handleGenerate
    rw [if_neg (by simp [himg]), htry]
  · intro p img fb regen s np himg hparse hnp hfalse
    have hcore : generateSceneCore p "cover" img fb (mkCandidateResp s) = .ok np := by
      rw [generateSceneCore_mkCandidate, hparse]
      rfl
    have htitle : getProp (some np) "extracted_title" =
        .ok (Json.getField np "extracted_title") :=
      getProp_eq_getField hnp (by decide)
    have htry : handleGenerateTry p "cover" img fb (mkCandidateResp s) = .ok
        { scenes := some (setScene p.scenes "cover" (completedScene p.scenes "cover" np)) } := by
      unfold handleGenerateTry
      rw [hcore]
      dsimp only
      rw [if_pos rfl, htitle]
      dsimp only
      rw [if_neg (by simp [hfalse])]
      simp [completedScene, generateVideoFromPrompt]
    unfold handleGenerate
    rw [if_neg (by simp [himg]), htry]

/-- C7 witness: Scenario E — a cover generation whose response includes
`extracted_title: "Foo"` renames the project to "Foo". -/
theorem c7_witness :
    handleGenerate proj1 "cover" "x" "" true (mkCandidateResp fooJsonText) =
      ([{ scenes := some (setScene proj1.scenes "cover"
            (completedScene proj1.scenes "cover" fooPrompt))
          name := some "Foo"
          author := some (jsValOr (Json.getField fooPrompt "extracted_author")
            "Unknown Author") }],
        none) :=
  c7_cover_title_update.1 proj1 "x" "" true fooJsonText fooPrompt "Foo"
    (by decide) (by with_unfolding_all rfl) (by with_unfolding_all rfl) (by decide)

/-! ## Claim C9 -/

/-- C9 (confirmed): the prompt builder is a pure, deterministic function —
identical inputs give the identical instruction string — and the
generation client commits no state, so two sequential generate calls on
the same pending scene with the same inputs and the same (deterministic)
service behaviour return the same Structured Prompt. -/
theorem c9_prompt_determinism :
    (∀ (p₁ p₂ : Project) (sid₁ sid₂ fb₁ fb₂ : String),
      p₁ = p₂ → sid₁ = sid₂ → fb₁ = fb₂ →
      buildApiPromptText p₁ sid₁ fb₁ = buildApiPromptText p₂ sid₂ fb₂) ∧
    (∀ (p : Project) (sid img fb : String) (resp : FetchResult),
      (generateScene p sid img fb resp).2 = [] ∧
      (generateScene (applyPatches p (generateScene p sid img fb resp).2) sid img fb resp).1 =
        (generateScene p sid img fb resp).1) := by
  constructor
  · intro p₁ p₂ sid₁ sid₂ fb₁ fb₂ h1 h2 h3
    rw [h1, h2, h3]
  · intro p sid img fb resp
    exact ⟨rfl, rfl⟩

/-- C9 witness: the determinism instance at a concrete input. -/
theorem c9_witness :
    buildApiPromptText proj1 "cover" "" = buildApiPromptText proj1 "cover" "" :=
  c9_prompt_determinism.1 proj1 proj1 "cover" "cover" "" "" rfl rfl rfl

/-! ## Claim C10 -/

/-- C10 (confirmed): the generation client fails with the service error
(carrying status and body) on a non-ok HTTP response; fails with the
empty-response error when the body has no truthy `candidates` or an empty
candidates array; otherwise parses the first candidate's part text and
returns the parsed value unchanged; and it never commits any patch (the
`updateProject` it receives is unused). -/
theorem c10_generation_client :
    (∀ (p : Project) (sid img fb : String) (st : Nat) (stx bd : String),
      generateSceneCore p sid img fb (.httpError st stx bd) =
        .error ("API Error: " ++ toString st ++ " " ++ stx ++ " - " ++ bd)) ∧
    (∀ (p : Project) (sid img fb : String) (result : Json) (cand : Option Json),
      getProp (some result) "candidates" = .ok cand → truthy cand = false →
      generateSceneCore p sid img fb (.jsonBody result) =
        .error "The model returned an empty or invalid response.") ∧
    (∀ (p : Project) (sid img fb : String) (result : Json),
      getProp (some result) "candidates" = .ok (some (.arr [])) →
      generateSceneCore p sid img fb (.jsonBody result) =
        .error "The model returned an empty or invalid response.") ∧
    (∀ (p : Project) (sid img fb s : String) (np : Json),
      Json.parse s = some np →
      generateSceneCore p sid img fb (mkCandidateResp s) = .ok np) ∧
    (∀ (p : Project) (sid img fb : String) (resp : FetchResult),
      (generateScene p sid img fb resp).2 = []) := by
  refine ⟨?_, ?_, ?_, ?_, ?_⟩
  · intro p sid img fb st stx bd
    rfl
  · intro p sid img fb result cand h1 h2
    unfold generateSceneCore
    dsimp only
    rw [h1]
    dsimp only
    rw [if_neg (by simp [h2])]
  · intro p sid img fb result h1
    unfold generateSceneCore
    dsimp only
    rw [h1]
    with_unfolding_all rfl
  · intro p sid img fb s np h
    rw [generateSceneCore_mkCandidate, h]
    rfl
  · intro p sid img fb resp
    rfl

/-- C10 witness: a parsed candidate is returned unchanged. -/
theorem c10_witness :
    generateSceneCore proj0 "1" "x" "" (mkCandidateResp "1") = .ok (Json.num "1") :=
  c10_generation_client.2.2.2.1 proj0 "1" "x" "" "1" (Json.num "1")
    (by with_unfolding_all rfl)
